import Mathlib

/-!
Verification development for the planetary-computer-mcp core:
query resolution (`core/collections.py`), AOI validation and area
computation (`core/geocoding.py`), fetch planning and dispatch
(`tools/download_data.py`), and the partitioned vector fetch
(`core/vector_utils.py`).

Python floats are embedded as `ℚ` where the source only ever forms,
compares and scales exact decimal constants, and as `ℝ` for the
trigonometric area formula.  External collaborators (the STAC catalog
client, the geocoder, raster/zarr/parquet I/O and the clock) are
passed in as explicit function parameters, so the theorems quantify
over their behaviour.
-/

/- ### String helpers: Python `needle in haystack` and `str.lower()` -/

/-- Boolean test that the first character list starts the second. -/
def chars_start_with : List Char → List Char → Bool
  | [], _ => true
  | _ :: _, [] => false
  | a :: as, b :: bs => a == b && chars_start_with as bs

/-- Boolean test that the first character list occurs inside the second. -/
def chars_contain (needle : List Char) : List Char → Bool
  | [] => needle.isEmpty
  | c :: rest => chars_start_with needle (c :: rest) || chars_contain needle rest

/-- Python `needle in haystack` on strings. -/
def str_in (needle haystack : String) : Bool :=
  chars_contain needle.data haystack.data

/-- Python `str.lower()` (ASCII is all the registry uses). -/
def lower_str (s : String) : String :=
  ⟨s.data.map Char.toLower⟩

/- ### Collection registry (`core/collections.py`) -/

/-- Entry of `COLLECTION_INFO`: display name, description, keywords, category. -/
structure CollInfo where
  name : String
  description : String
  keywords : List String
  category : String
deriving Repr, DecidableEq

/-- Collection metadata with descriptions for suggestions (`COLLECTION_INFO`). -/
def COLLECTION_INFO : List (String × CollInfo) := [
  ("sentinel-2-l2a",
    ⟨"Sentinel-2 L2A", "10m optical imagery, global, 5-day revisit",
     ["sentinel-2", "sentinel", "optical", "multispectral"], "optical"⟩),
  ("landsat-c2-l2",
    ⟨"Landsat Collection 2 L2", "30m optical imagery, global, 16-day revisit",
     ["landsat", "landsat-8", "landsat-9"], "optical"⟩),
  ("naip",
    ⟨"NAIP Aerial Imagery", "0.6-1m aerial photos, US only, updated every 2-3 years",
     ["naip", "aerial", "high-resolution", "usda"], "optical"⟩),
  ("sentinel-1-rtc",
    ⟨"Sentinel-1 RTC", "10m radar imagery, global, works through clouds",
     ["sentinel-1", "sar", "radar", "microwave"], "sar"⟩),
  ("cop-dem-glo-30",
    ⟨"Copernicus DEM 30m", "30m global elevation model",
     ["dem", "elevation", "terrain", "copernicus", "height"], "elevation"⟩),
  ("alos-dem",
    ⟨"ALOS World 3D DEM", "30m global elevation from JAXA",
     ["alos", "dem", "elevation", "jaxa"], "elevation"⟩),
  ("esa-worldcover",
    ⟨"ESA WorldCover", "10m global land cover classification",
     ["worldcover", "land cover", "landcover", "esa", "classification"], "land_cover"⟩),
  ("io-lulc-annual-v02",
    ⟨"Esri Land Use/Land Cover", "10m annual global land use classification",
     ["lulc", "land use", "esri", "annual"], "land_cover"⟩),
  ("gridmet",
    ⟨"gridMET", "4km daily climate data for CONUS (1979-present)",
     ["gridmet", "climate", "weather", "temperature", "precipitation", "conus"], "climate"⟩),
  ("terraclimate",
    ⟨"TerraClimate", "4km monthly climate data, global (1958-present)",
     ["terraclimate", "climate", "monthly", "global"], "climate"⟩),
  ("daymet-daily-na",
    ⟨"Daymet Daily", "1km daily weather data for North America",
     ["daymet", "weather", "daily", "north america"], "climate"⟩),
  ("ms-buildings",
    ⟨"Microsoft Building Footprints", "AI-derived building polygons, global coverage",
     ["building", "buildings", "footprint", "footprints", "microsoft"], "vector"⟩)]

/-- Backward-compatible keyword mapping (`COLLECTION_KEYWORDS`). -/
def COLLECTION_KEYWORDS : List (String × String) := [
  ("sentinel-1", "sentinel-1-rtc"),
  ("sentinel", "sentinel-2-l2a"),
  ("sentinel-2", "sentinel-2-l2a"),
  ("naip", "naip"),
  ("aerial", "naip"),
  ("landsat", "landsat-c2-l2"),
  ("dem", "cop-dem-glo-30"),
  ("elevation", "cop-dem-glo-30"),
  ("terrain", "cop-dem-glo-30"),
  ("copernicus", "cop-dem-glo-30"),
  ("alos", "alos-dem"),
  ("land cover", "esa-worldcover"),
  ("landcover", "esa-worldcover"),
  ("lulc", "io-lulc-annual-v02"),
  ("land use", "io-lulc-annual-v02"),
  ("worldcover", "esa-worldcover"),
  ("building", "ms-buildings"),
  ("buildings", "ms-buildings"),
  ("footprint", "ms-buildings"),
  ("sar", "sentinel-1-rtc"),
  ("radar", "sentinel-1-rtc"),
  ("gridmet", "gridmet"),
  ("terraclimate", "terraclimate"),
  ("daymet", "daymet-daily-na"),
  ("climate", "gridmet"),
  ("weather", "gridmet"),
  ("temperature", "gridmet"),
  ("precipitation", "gridmet")]

/-- Generic terms that match multiple collections (`AMBIGUOUS_KEYWORDS`). -/
def AMBIGUOUS_KEYWORDS : List (String × List String) := [
  ("satellite", ["sentinel-2-l2a", "landsat-c2-l2", "sentinel-1-rtc"]),
  ("imagery", ["sentinel-2-l2a", "landsat-c2-l2", "naip"]),
  ("image", ["sentinel-2-l2a", "landsat-c2-l2", "naip"]),
  ("remote sensing", ["sentinel-2-l2a", "landsat-c2-l2", "sentinel-1-rtc"]),
  ("optical", ["sentinel-2-l2a", "landsat-c2-l2", "naip"])]

/-- Available data categories for error messages (`AVAILABLE_CATEGORIES`). -/
def AVAILABLE_CATEGORIES : List String := [
  "optical imagery (sentinel-2, landsat, naip)",
  "radar/SAR (sentinel-1)",
  "elevation/DEM (copernicus dem, alos dem)",
  "land cover (esa worldcover, esri lulc)",
  "climate/weather (gridmet, terraclimate, daymet)",
  "building footprints (ms-buildings)"]

/-- Category of a collection, read from the registry. -/
def category_of (collection_id : String) : Option String :=
  (COLLECTION_INFO.lookup collection_id).map (·.category)

/- ### Query resolver (`detect_collection_from_query`) -/

/-- Suggestion dict carried by `AmbiguousCollectionError`. -/
structure Suggestion where
  collection : String
  name : String
  description : String
deriving Repr, DecidableEq

/-- Errors raised by `detect_collection_from_query`. -/
inductive DetectError where
  | ambiguous (message : String) (suggestions : List Suggestion)
  | noMatch (message : String) (availableCategories : List String)
deriving Repr, DecidableEq

/-- Score how well a query matches a collection (`_score_collection_match`). -/
def score_collection_match (query_lower : String) (collection_id : String) : ℕ :=
  match COLLECTION_INFO.lookup collection_id with
  | none => 0
  | some info =>
    info.keywords.foldl
      (fun score kw =>
        if str_in kw query_lower then
          if kw == collection_id then score + 100 else score + kw.length * 2
        else score)
      0

/-- Collections gathered from every ambiguous keyword found in the query. -/
def ambiguous_matched (query_lower : String) : List String :=
  AMBIGUOUS_KEYWORDS.foldl
    (fun acc p => if str_in p.1 query_lower then acc ++ p.2 else acc) []

/-- Positive per-collection scores in registry insertion order. -/
def initial_matched (query_lower : String) : List (String × ℕ) :=
  COLLECTION_INFO.foldl
    (fun acc p =>
      let score := score_collection_match query_lower p.1
      if score > 0 then acc ++ [(p.1, score)] else acc)
    []

/-- Python dict assignment on an insertion-ordered association list. -/
def set_score : List (String × ℕ) → String → ℕ → List (String × ℕ)
  | [], k, v => [(k, v)]
  | (k', v') :: rest, k, v =>
    if k' == k then (k, v) :: rest else (k', v') :: set_score rest k v

/-- Keys of the ambiguous-keyword table. -/
def ambiguous_keys : List String := AMBIGUOUS_KEYWORDS.map (·.1)

/-- Second scoring pass over `COLLECTION_KEYWORDS`; returns the updated
score table and whether any specific (non-ambiguous) keyword matched. -/
def keyword_pass (query_lower : String) (m : List (String × ℕ)) :
    List (String × ℕ) × Bool :=
  COLLECTION_KEYWORDS.foldl
    (fun acc p =>
      if str_in p.1 query_lower && !(ambiguous_keys.contains p.1) then
        let current := (acc.1.lookup p.2).getD 0
        (set_score acc.1 p.2 (current + p.1.length * 3), true)
      else acc)
    (m, false)

/-- Python `list(dict.fromkeys(l))`: deduplicate preserving first-seen order. -/
def dedup_first_seen (l : List String) : List String :=
  l.foldl (fun acc c => if acc.contains c then acc else acc ++ [c]) []

/-- Build one suggestion dict from a collection id. -/
def mk_suggestion (c : String) : Suggestion :=
  { collection := c
    name := ((COLLECTION_INFO.lookup c).map (·.name)).getD c
    description := ((COLLECTION_INFO.lookup c).map (·.description)).getD "" }

/-- Stable insertion into a list sorted descending by score. -/
def insert_desc (x : String × ℕ) : List (String × ℕ) → List (String × ℕ)
  | [] => [x]
  | y :: ys => if x.2 ≥ y.2 then x :: y :: ys else y :: insert_desc x ys

/-- Python `sorted(items, key=score, reverse=True)` (stable). -/
def sort_desc (l : List (String × ℕ)) : List (String × ℕ) :=
  l.foldr insert_desc []

/-- Detect collection ID from natural language query
(`detect_collection_from_query`). -/
def detect_collection_from_query (query : String) : Except DetectError String :=
  let query_lower := lower_str query
  let ambiguous := ambiguous_matched query_lower
  let pass := keyword_pass query_lower (initial_matched query_lower)
  let matched := pass.1
  let specific_keyword_match := pass.2
  if !ambiguous.isEmpty && !specific_keyword_match then
    let unique_matched := (dedup_first_seen ambiguous).take 3
    .error (.ambiguous
      (s!"Query \x27{query}\x27 is ambiguous. Please specify a collection type.")
      (unique_matched.map mk_suggestion))
  else
    match sort_desc matched with
    | [] =>
      .error (.noMatch
        (s!"Could not determine collection from query: \x27{query}\x27. Please be more explicit about the type of data you want.")
        AVAILABLE_CATEGORIES)
    | (top_collection, top_score) :: rest =>
      match rest with
      | [] => .ok top_collection
      | (_, second_score) :: _ =>
        if (top_score : ℚ) > (second_score : ℚ) * 1.5 then
          .ok top_collection
        else
          let close_matched :=
            ((top_collection, top_score) :: rest).filter
              (fun p => (p.2 : ℚ) ≥ (top_score : ℚ) * 0.6)
          if close_matched.length > 1 then
            .error (.ambiguous
              (s!"Query \x27{query}\x27 matches multiple collections. Please be more specific about the data you want.")
              ((close_matched.take 3).map (fun p => mk_suggestion p.1)))
          else .ok top_collection

/-- Collections (suggestion ids) carried by an ambiguous-resolution error. -/
def detect_suggestions : Except DetectError String → List String
  | .error (.ambiguous _ s) => s.map (·.collection)
  | _ => []

/- ### Collection metadata for tool routing (`COLLECTION_TYPES`) -/

/-- Collection metadata for tool routing (`COLLECTION_TYPES`). -/
def COLLECTION_TYPES : List (String × String) := [
  ("sentinel-2-l2a", "raster"),
  ("naip", "raster"),
  ("landsat-c2-l2", "raster"),
  ("cop-dem-glo-30", "raster"),
  ("alos-dem", "raster"),
  ("esa-worldcover", "raster"),
  ("io-lulc-annual-v02", "raster"),
  ("sentinel-1-rtc", "raster"),
  ("gridmet", "zarr"),
  ("terraclimate", "zarr"),
  ("daymet-daily-na", "zarr"),
  ("daymet-daily-hi", "zarr"),
  ("daymet-daily-pr", "zarr"),
  ("daymet-monthly-na", "zarr"),
  ("daymet-annual-na", "zarr"),
  ("era5-pds", "zarr"),
  ("ms-buildings", "vector")]

/-- Get the data type for a collection (`get_collection_type`);
defaults to `"raster"` for unknown ids. -/
def get_collection_type (collection_id : String) : String :=
  (COLLECTION_TYPES.lookup collection_id).getD "raster"

/- ### AOI validation and area (`core/geocoding.py`) -/

/-- Validate and normalize a bounding box (`validate_bbox`).  A failed
check raises `ValueError`, modelled as `Except.error` with the message. -/
def validate_bbox : List ℚ → Except String (List ℚ)
  | [west, south, east, north] =>
    if west ≥ east then .error "West must be less than east"
    else if south ≥ north then .error "South must be less than north"
    else if ¬(-180 ≤ west ∧ west ≤ 180 ∧ -180 ≤ east ∧ east ≤ 180) then
      .error "Longitude must be between -180 and 180"
    else if ¬(-90 ≤ south ∧ south ≤ 90 ∧ -90 ≤ north ∧ north ≤ 90) then
      .error "Latitude must be between -90 and 90"
    else .ok [west, south, east, north]
  | _ => .error "Bbox must have 4 elements [west, south, east, north]"

/-- Python `math.radians`. -/
noncomputable def radians (x : ℝ) : ℝ := x * (Real.pi / 180)

/-- Approximate area of a bounding box in km² (`calculate_bbox_area_km2`),
with the float arithmetic read as real arithmetic. -/
noncomputable def calculate_bbox_area_km2 (west south east north : ℝ) : ℝ :=
  let lat1 := radians south
  let lat2 := radians north
  let lon1 := radians west
  let lon2 := radians east
  let center_lat := (lat1 + lat2) / 2
  let width_km := 6371 * |lon2 - lon1| * Real.cos center_lat
  let height_km := 6371 * |lat2 - lat1|
  width_km * height_km

/-- ISO8601 time range for the last `days` days (`get_default_time_range`).
The clock and `strftime` are external: `today` is the current day as an
epoch-day count and `date_str` renders a day as a `%Y-%m-%d` string. -/
def get_default_time_range (date_str : ℤ → String) (today : ℤ) (days : ℕ) : String :=
  date_str (today - days) ++ "/" ++ date_str today

/- ### Fetch-planning constants (`tools/download_data.py`) -/

/-- Warn threshold for AOI size in km² (`AOI_WARN_THRESHOLD_KM2`). -/
def AOI_WARN_THRESHOLD_KM2 : ℚ := 100

/-- Reject threshold for AOI size in km² (`AOI_REJECT_THRESHOLD_KM2`). -/
def AOI_REJECT_THRESHOLD_KM2 : ℚ := 1000

/-- Default time range in days (`DEFAULT_TIME_RANGE_DAYS`). -/
def DEFAULT_TIME_RANGE_DAYS : ℕ := 7

/-- Resolution scaling factors based on AOI size (`RESOLUTION_SCALE_THRESHOLDS`). -/
def RESOLUTION_SCALE_THRESHOLDS : List (ℚ × ℕ) :=
  [(10, 1), (50, 2), (100, 4), (500, 8), (1000, 16)]

/-- Adaptive search limits based on AOI size (`SEARCH_LIMIT_THRESHOLDS`). -/
def SEARCH_LIMIT_THRESHOLDS : List (ℚ × ℕ) :=
  [(10, 1), (50, 2), (100, 5), (500, 10), (1000, 20)]

/-- Native resolutions in degrees (`NATIVE_RESOLUTIONS`). -/
def NATIVE_RESOLUTIONS : List (String × ℚ) := [
  ("sentinel-2-l2a", 0.0001),
  ("landsat-c2-l2", 0.00027),
  ("naip", 0.000003),
  ("hls2-l30", 0.00027),
  ("hls2-s30", 0.00027),
  ("modis-09A1-061", 0.0045),
  ("aster-l1t", 0.00014),
  ("planet-nicfi", 0.000043),
  ("sentinel-1-rtc", 0.0001),
  ("sentinel-1-grd", 0.0001),
  ("alos-palsar", 0.000113),
  ("cop-dem-glo-30", 0.00027),
  ("cop-dem-glo-90", 0.00081),
  ("copernicus-dem", 0.00027),
  ("alos-dem", 0.00027),
  ("nasadem", 0.00027),
  ("3dep-seamless", 0.00009),
  ("esa-worldcover", 0.0001),
  ("io-lulc-annual-v02", 0.0001),
  ("usda-cdl", 0.00027),
  ("usgs-lcmap", 0.00027),
  ("nrcan-landcover", 0.00027),
  ("esa-cci", 0.0027),
  ("gap", 0.00027),
  ("drcog-lulc", 0.000009),
  ("chesapeake", 0.000009),
  ("gridmet", 0.036),
  ("terraclimate", 0.036),
  ("gpm-imerg-hhr", 0.001),
  ("jrc-gsw", 0.00027),
  ("deltares-floods", 0.00081),
  ("gnatsgo", 0.00027),
  ("io-biodiversity", 0.0001)]

/-- Native resolution with the 10m default used by `_download_raster_data`. -/
def get_native_resolution (collection : String) : ℚ :=
  (NATIVE_RESOLUTIONS.lookup collection).getD 0.0001

/-- Loop of `_download_raster_data` choosing the resolution scale: first
threshold with `area ≤ threshold` wins, else the for-else sets 16. -/
def resolution_scale_from : List (ℚ × ℕ) → ℚ → ℕ
  | [], _ => 16
  | (threshold, scale) :: rest, area =>
    if area ≤ threshold then scale else resolution_scale_from rest area

/-- Resolution scale factor as a function of AOI area in km². -/
def resolution_scale (aoi_area_km2 : ℚ) : ℕ :=
  resolution_scale_from RESOLUTION_SCALE_THRESHOLDS aoi_area_km2

/-- Loop of `get_adaptive_search_limit`: first threshold with
`area < threshold` wins, else the last configured limit. -/
def search_limit_from : List (ℚ × ℕ) → ℚ → ℕ
  | [], _ => (SEARCH_LIMIT_THRESHOLDS.getLastD (1000, 20)).2
  | (threshold, limit) :: rest, area =>
    if area < threshold then limit else search_limit_from rest area

/-- Get adaptive search limit based on AOI size (`get_adaptive_search_limit`). -/
def get_adaptive_search_limit (aoi_area_km2 : ℚ) : ℕ :=
  search_limit_from SEARCH_LIMIT_THRESHOLDS aoi_area_km2

/- ### download_data pipeline (`tools/download_data.py`) -/

/-- Retry suggestion dict attached to `NoDataFoundError`. -/
structure RetrySuggestion where
  action : String
  suggestedTimeRange : String
  suggestedDays : ℕ
  message : String
deriving Repr, DecidableEq

/-- Structured caller-visible failures of `download_data`. -/
inductive DlError where
  | resolution (e : DetectError)
  | invalidBbox (message : String)
  | aoiTooLarge (areaKm2 : ℚ) (maxKm2 : ℚ)
  | noDataFound (message : String) (suggestion : Option RetrySuggestion)
  | unsupportedDataType (dataType : String)
deriving Repr, DecidableEq

/-- Arguments of the single `stac_client.search_items` call site. -/
structure SearchArgs where
  collections : List String
  bbox : List ℚ
  datetime : String
  maxCloudCover : Option ℤ
  limit : ℕ
  sortby : String
deriving Repr, DecidableEq

/-- Result dictionary of `download_data` (paths, collection, the
`download_info.resolution_deg` entry, and the warnings list; the raster
metadata produced by the I/O collaborators is out of scope). -/
structure DlResult where
  raw : String
  visualization : String
  collection : String
  resolutionDeg : ℚ
  warnings : List String
deriving Repr, DecidableEq

/-- Cloud-cover argument passed to the catalog search: only collections
with an `eo:cloud_cover` property get the filter (`_download_raster_data`). -/
def cloud_cover_filter (collection : String) (max_cloud_cover : ℤ) : Option ℤ :=
  if ["sentinel-2-l2a", "landsat-c2-l2"].contains collection then
    some max_cloud_cover
  else none

/-- Large-AOI warning appended by `download_data`. -/
def large_aoi_warning (aoi_area_km2 : ℚ) : String :=
  s!"Large AOI ({round aoi_area_km2} km2). Download may take several minutes. Consider using a smaller area for faster results."

/-- Default-time-range warning appended by `download_data`. -/
def default_time_range_warning (time_range : String) : String :=
  s!"No time range specified. Using last {DEFAULT_TIME_RANGE_DAYS} days: {time_range}. Specify time_range like \x272024-06-01/2024-06-30\x27 for specific dates."

/-- Time-range defaulting step of `download_data`: returns the effective
time range and `used_default_time_range`. -/
def apply_default_time_range (date_str : ℤ → String) (today : ℤ) :
    Option String → String × Bool
  | none => (get_default_time_range date_str today DEFAULT_TIME_RANGE_DAYS, true)
  | some tr => (tr, false)

/-- Raster branch (`_download_raster_data`).  The catalog client is the
injected `search`; the pixel reads, GeoTIFF save and visualization are
external collaborators, so the model builds the result dictionary
directly.  The second component records every catalog search performed. -/
def download_raster_data {Item : Type} (search : SearchArgs → List Item)
    (date_str : ℤ → String) (today : ℤ)
    (collection : String) (bbox : List ℚ) (time_range : String)
    (output_dir : String) (max_cloud_cover : ℤ) (aoi_area_km2 : ℚ)
    (used_default_time_range : Bool) :
    Except DlError DlResult × List SearchArgs :=
  let cloud_cover := cloud_cover_filter collection max_cloud_cover
  let search_limit := get_adaptive_search_limit aoi_area_km2
  let args : SearchArgs :=
    { collections := [collection], bbox := bbox, datetime := time_range,
      maxCloudCover := cloud_cover, limit := search_limit, sortby := "-datetime" }
  let items := search args
  if items.isEmpty then
    let expanded_days := DEFAULT_TIME_RANGE_DAYS + 7
    let expanded_time_range := get_default_time_range date_str today expanded_days
    let suggestion : RetrySuggestion :=
      { action := "retry_with_expanded_time_range"
        suggestedTimeRange := expanded_time_range
        suggestedDays := expanded_days
        message := s!"No data found for {collection} in the last {DEFAULT_TIME_RANGE_DAYS} days. Try expanding the time range to {expanded_days} days: {expanded_time_range}" }
    if used_default_time_range then
      (.error (.noDataFound
        (s!"No {collection} data found in the last {DEFAULT_TIME_RANGE_DAYS} days for this area. Suggestion: expand time_range to \x27{expanded_time_range}\x27 (last {expanded_days} days) and retry.")
        (some suggestion)), [args])
    else
      (.error (.noDataFound
        (s!"No {collection} data found for time range \x27{time_range}\x27 in this area. Try a different time range or expand your search window.")
        none), [args])
  else
    let native_resolution := get_native_resolution collection
    let resolution := native_resolution * (resolution_scale aoi_area_km2 : ℚ)
    (.ok { raw := output_dir ++ "/" ++ collection ++ "-data.tif"
           visualization := output_dir ++ "/" ++ collection ++ "-visual.jpg"
           collection := collection
           resolutionDeg := resolution
           warnings := [] }, [args])

/-- Body of `download_data` after query resolution, with the collection
as a value.  `area` stands for the float-valued `calculate_bbox_area_km2`
and `zarr` for the `_download_zarr_data` collaborator path. -/
def download_data_core {Item : Type} (area : List ℚ → ℚ)
    (search : SearchArgs → List Item)
    (zarr : String → List ℚ → String → String → Except DlError DlResult)
    (date_str : ℤ → String) (today : ℤ)
    (collection : String) (aoi : List ℚ) (time_range : Option String)
    (output_dir : String) (max_cloud_cover : ℤ) :
    Except DlError DlResult × List SearchArgs :=
  match validate_bbox aoi with
  | .error msg => (.error (.invalidBbox msg), [])
  | .ok bbox =>
    let aoi_area_km2 := area bbox
    if aoi_area_km2 > AOI_REJECT_THRESHOLD_KM2 then
      (.error (.aoiTooLarge aoi_area_km2 AOI_REJECT_THRESHOLD_KM2), [])
    else
      let warnings1 :=
        if aoi_area_km2 > AOI_WARN_THRESHOLD_KM2 then [large_aoi_warning aoi_area_km2]
        else []
      let applied := apply_default_time_range date_str today time_range
      let time_range' := applied.1
      let used_default_time_range := applied.2
      let warnings_list :=
        if used_default_time_range then
          warnings1 ++ [default_time_range_warning time_range']
        else warnings1
      let data_type := get_collection_type collection
      if data_type = "raster" then
        match download_raster_data search date_str today collection bbox time_range'
            output_dir max_cloud_cover aoi_area_km2 used_default_time_range with
        | (.ok r, calls) =>
          (.ok (if warnings_list.isEmpty then r else { r with warnings := warnings_list }),
           calls)
        | (.error e, calls) => (.error e, calls)
      else if data_type = "zarr" then
        match zarr collection bbox time_range' output_dir with
        | .ok r =>
          (.ok (if warnings_list.isEmpty then r else { r with warnings := warnings_list }), [])
        | .error e => (.error e, [])
      else
        (.error (.unsupportedDataType data_type), [])

/-- `download_data`: resolve the query, then run the planning/dispatch
body.  The geocoding branch for place-name AOIs is an external
collaborator; the model takes the caller-supplied bounding-box form. -/
def download_data {Item : Type} (area : List ℚ → ℚ)
    (search : SearchArgs → List Item)
    (zarr : String → List ℚ → String → String → Except DlError DlResult)
    (date_str : ℤ → String) (today : ℤ)
    (query : String) (aoi : List ℚ) (time_range : Option String)
    (output_dir : String) (max_cloud_cover : ℤ) :
    Except DlError DlResult × List SearchArgs :=
  match detect_collection_from_query query with
  | .error e => (.error (.resolution e), [])
  | .ok collection =>
    download_data_core area search zarr date_str today collection aoi time_range
      output_dir max_cloud_cover

/- ### Partitioned vector fetch (`core/vector_utils.py`) -/

/-- Read one parquet partition and filter spatially
(`_read_and_filter_parquet`).  The raw read either raises (`.error`,
swallowed by the `except` into `none`) or yields the partition rows;
`intersects` is the exact AOI-intersection predicate.  `none` is also
returned when the partition or its filtered rows are empty. -/
def read_and_filter_parquet {Row : Type} (raw : Except Unit (List Row))
    (intersects : Row → Bool) : Option (List Row) :=
  match raw with
  | .error _ => none
  | .ok rows =>
    if rows.length = 0 then none
    else
      let filtered := rows.filter intersects
      if filtered.length > 0 then some filtered else none

/-- One iteration of the result-accumulation loop of
`query_geoparquet_by_quadkey`: a successful non-empty read is appended,
anything else (swallowed failure or empty frame) is skipped. -/
def collect_step {Row : Type} (intersects : Row → Bool)
    (acc : List (List Row)) (p : Except Unit (List Row)) : List (List Row) :=
  match read_and_filter_parquet p intersects with
  | some gdf => if gdf.length > 0 then acc ++ [gdf] else acc
  | none => acc

/-- Accumulation loop of `query_geoparquet_by_quadkey` over the partition
files: successful non-empty reads are collected, failures are skipped. -/
def collect_partition_reads {Row : Type}
    (partitions : List (Except Unit (List Row))) (intersects : Row → Bool) :
    List (List Row) :=
  partitions.foldl (collect_step intersects) []

/-- Query GeoParquet by quadkey partitions (`query_geoparquet_by_quadkey`)
from the partition file set onward: concatenate the collected frames, or
return the empty (but valid) GeoDataFrame when nothing was collected. -/
def query_geoparquet_by_quadkey {Row : Type}
    (partitions : List (Except Unit (List Row))) (intersects : Row → Bool) :
    List Row :=
  (collect_partition_reads partitions intersects).flatten

/- ### Generic helpers for the theorems -/

instance {ε α : Type} [DecidableEq ε] [DecidableEq α] : DecidableEq (Except ε α) :=
  fun a b =>
    match a, b with
    | .ok x, .ok y => if h : x = y then .isTrue (by rw [h]) else .isFalse (by simp [h])
    | .error x, .error y => if h : x = y then .isTrue (by rw [h]) else .isFalse (by simp [h])
    | .ok _, .error _ => .isFalse (by simp)
    | .error _, .ok _ => .isFalse (by simp)

/-- Every value found by `List.lookup` satisfies any property that holds for
all values in the association list. -/
theorem lookup_forall {α β : Type} [BEq α] [LawfulBEq α] (P : β → Prop)
    (l : List (α × β)) (h : ∀ p ∈ l, P p.2) :
    ∀ k v, l.lookup k = some v → P v := by
  intro k v hkv
  induction l with
  | nil => simp [List.lookup] at hkv
  | cons p rest ih =>
    rw [List.lookup] at hkv
    by_cases hk : (k == p.1) = true
    · rw [hk] at hkv
      simp at hkv
      exact hkv ▸ h p (List.mem_cons_self p rest)
    · rw [Bool.not_eq_true] at hk
      rw [hk] at hkv
      exact ih (fun q hq => h q (List.mem_cons_of_mem p hq)) hkv

/-- Stub for the zarr collaborator path, used only to instantiate witnesses
whose scenarios never reach it. -/
def zarr_unused : String → List ℚ → String → String → Except DlError DlResult :=
  fun _ _ _ _ => .error (.unsupportedDataType "unused")

/- ### C9: bounding-box validation -/

/-- C9: validation of a caller-supplied list bounding box fails, naming the
violated constraint, exactly when the list is not 4 elements, or west ≥ east,
or south ≥ north, or a longitude is outside [-180,180], or a latitude is
outside [-90,90]; every valid input is returned unchanged. -/
theorem C9_validate_bbox_characterization (b : List ℚ) :
    (b.length ≠ 4 →
      validate_bbox b = .error "Bbox must have 4 elements [west, south, east, north]") ∧
    (∀ w s e n : ℚ, b = [w, s, e, n] →
      (w ≥ e → validate_bbox b = .error "West must be less than east") ∧
      (w < e → s ≥ n → validate_bbox b = .error "South must be less than north") ∧
      (w < e → s < n → ¬(-180 ≤ w ∧ w ≤ 180 ∧ -180 ≤ e ∧ e ≤ 180) →
        validate_bbox b = .error "Longitude must be between -180 and 180") ∧
      (w < e → s < n → (-180 ≤ w ∧ w ≤ 180 ∧ -180 ≤ e ∧ e ≤ 180) →
        ¬(-90 ≤ s ∧ s ≤ 90 ∧ -90 ≤ n ∧ n ≤ 90) →
        validate_bbox b = .error "Latitude must be between -90 and 90")) ∧
    ((∃ r, validate_bbox b = .ok r) ↔
      (∃ w s e n : ℚ, b = [w, s, e, n] ∧ w < e ∧ s < n ∧
        -180 ≤ w ∧ w ≤ 180 ∧ -180 ≤ e ∧ e ≤ 180 ∧
        -90 ≤ s ∧ s ≤ 90 ∧ -90 ≤ n ∧ n ≤ 90)) ∧
    (∀ r, validate_bbox b = .ok r → r = b) := by
  refine ⟨?_, ?_, ?_, ?_⟩
  · intro hlen
    match b with
    | [] => rfl
    | [_] => rfl
    | [_, _] => rfl
    | [_, _, _] => rfl
    | [_, _, _, _] => simp at hlen
    | _ :: _ :: _ :: _ :: _ :: _ => rfl
  · rintro w s e n rfl
    refine ⟨?_, ?_, ?_, ?_⟩
    · intro hwe
      rw [validate_bbox, if_pos hwe]
    · intro hwe hsn
      rw [validate_bbox, if_neg (not_le.mpr hwe), if_pos hsn]
    · intro hwe hsn hlon
      rw [validate_bbox, if_neg (not_le.mpr hwe), if_neg (not_le.mpr hsn), if_pos hlon]
    · intro hwe hsn hlon hlat
      rw [validate_bbox, if_neg (not_le.mpr hwe), if_neg (not_le.mpr hsn),
        if_neg (not_not_intro hlon), if_pos hlat]
  · constructor
    · rintro ⟨r, hr⟩
      match b with
      | [] => simp [validate_bbox] at hr
      | [_] => simp [validate_bbox] at hr
      | [_, _] => simp [validate_bbox] at hr
      | [_, _, _] => simp [validate_bbox] at hr
      | _ :: _ :: _ :: _ :: _ :: _ => simp [validate_bbox] at hr
      | [w, s, e, n] =>
        rw [validate_bbox] at hr
        split_ifs at hr with h1 h2 h3 h4
        push_neg at h1 h2
        obtain ⟨l1, l2, l3, l4⟩ := h3
        obtain ⟨m1, m2, m3, m4⟩ := h4
        exact ⟨w, s, e, n, rfl, h1, h2, l1, l2, l3, l4, m1, m2, m3, m4⟩
    · rintro ⟨w, s, e, n, rfl, hwe, hsn, l1, l2, l3, l4, m1, m2, m3, m4⟩
      refine ⟨[w, s, e, n], ?_⟩
      rw [validate_bbox, if_neg (not_le.mpr hwe), if_neg (not_le.mpr hsn),
        if_neg (not_not_intro ⟨l1, l2, l3, l4⟩), if_neg (not_not_intro ⟨m1, m2, m3, m4⟩)]
  · intro r hr
    match b with
    | [] => simp [validate_bbox] at hr
    | [_] => simp [validate_bbox] at hr
    | [_, _] => simp [validate_bbox] at hr
    | [_, _, _] => simp [validate_bbox] at hr
    | _ :: _ :: _ :: _ :: _ :: _ => simp [validate_bbox] at hr
    | [w, s, e, n] =>
      rw [validate_bbox] at hr
      split_ifs at hr
      simp_all

/-- Witness for C9 at a concrete valid box and a concrete inverted box. -/
theorem C9_witness :
    (∃ r, validate_bbox [0, 0, 1, 1] = .ok r) ∧
    validate_bbox [1, 0, 0, 1] = .error "West must be less than east" := by
  constructor
  · exact (C9_validate_bbox_characterization [0, 0, 1, 1]).2.2.1.mpr
      ⟨0, 0, 1, 1, rfl, by norm_num, by norm_num, by norm_num, by norm_num, by norm_num,
        by norm_num, by norm_num, by norm_num, by norm_num, by norm_num⟩
  · exact ((C9_validate_bbox_characterization [1, 0, 0, 1]).2.1 1 0 0 1 rfl).1 (by norm_num)

/- ### C5: resolution scaling -/

/-- Closed form of the resolution-scale loop on the configured thresholds. -/
theorem resolution_scale_eq (a : ℚ) :
    resolution_scale a =
      if a ≤ 10 then 1 else if a ≤ 50 then 2 else if a ≤ 100 then 4
      else if a ≤ 500 then 8 else if a ≤ 1000 then 16 else 16 := rfl

/-- Every native resolution in the registry is positive. -/
theorem native_resolution_pos (collection : String) :
    0 < get_native_resolution collection := by
  rw [get_native_resolution]
  cases h : NATIVE_RESOLUTIONS.lookup collection with
  | none => norm_num
  | some v =>
    rw [Option.getD_some]
    refine lookup_forall (fun q : ℚ => 0 < q) NATIVE_RESOLUTIONS ?_ collection v h
    intro p hp
    fin_cases hp <;> norm_num

/-- C5: the resolution scale factor is a monotonic non-decreasing step
function of the AOI area over the 10/50/100/500/1000 km² thresholds with
values in {1,2,4,8,16}, equal to 1 up to 10 km², and the planned
resolution (native × scale) is never below the native resolution. -/
theorem C5_resolution_scaling :
    (∀ a₁ a₂ : ℚ, a₁ ≤ a₂ → resolution_scale a₁ ≤ resolution_scale a₂) ∧
    (∀ a : ℚ, resolution_scale a ∈ [1, 2, 4, 8, 16]) ∧
    (∀ a : ℚ, a ≤ 10 → resolution_scale a = 1) ∧
    (∀ (collection : String) (a : ℚ),
      0 < get_native_resolution collection ∧
      get_native_resolution collection ≤
        get_native_resolution collection * (resolution_scale a : ℚ)) := by
  refine ⟨?_, ?_, ?_, ?_⟩
  · intro a₁ a₂ h
    rw [resolution_scale_eq, resolution_scale_eq]
    split_ifs <;> first | omega | linarith
  · intro a
    rw [resolution_scale_eq]
    split_ifs <;> simp
  · intro a ha
    rw [resolution_scale_eq, if_pos ha]
  · intro collection a
    refine ⟨native_resolution_pos collection, ?_⟩
    have h1 : (1 : ℚ) ≤ (resolution_scale a : ℚ) := by
      have : 1 ≤ resolution_scale a := by
        rw [resolution_scale_eq]
        split_ifs <;> omega
      exact_mod_cast this
    calc get_native_resolution collection
        = get_native_resolution collection * 1 := by ring
      _ ≤ get_native_resolution collection * (resolution_scale a : ℚ) :=
          mul_le_mul_of_nonneg_left h1 (native_resolution_pos collection).le

/-- Witness for C5 across two concrete areas on either side of a threshold. -/
theorem C5_witness :
    resolution_scale 5 ≤ resolution_scale 30 ∧
    resolution_scale 30 ∈ [1, 2, 4, 8, 16] ∧
    resolution_scale 5 = 1 ∧
    (0 < get_native_resolution "sentinel-2-l2a" ∧
      get_native_resolution "sentinel-2-l2a" ≤
        get_native_resolution "sentinel-2-l2a" * (resolution_scale 30 : ℚ)) :=
  ⟨C5_resolution_scaling.1 5 30 (by norm_num),
   C5_resolution_scaling.2.1 30,
   C5_resolution_scaling.2.2.1 5 (by norm_num),
   C5_resolution_scaling.2.2.2 "sentinel-2-l2a" 30⟩

/- ### C10: collection-type lookup totality and raster default -/

/-- C10: the shape-type lookup is total with a silent default — it always
yields one of raster/vector/zarr and yields raster for every id absent from
the registry — and the dispatch step of `download_data` sends a
resolved-but-unregistered collection down the raster path (one catalog
search for exactly that collection) instead of failing with the
unsupported-shape error. -/
theorem C10_collection_type_total_default :
    (∀ id : String, get_collection_type id ∈ ["raster", "vector", "zarr"]) ∧
    (∀ id : String, COLLECTION_TYPES.lookup id = none → get_collection_type id = "raster") ∧
    (∀ (Item : Type) (area : List ℚ → ℚ) (search : SearchArgs → List Item) zarr
      date_str today collection aoi time_range output_dir max_cloud_cover bbox,
      COLLECTION_TYPES.lookup collection = none →
      validate_bbox aoi = .ok bbox →
      ¬(area bbox > AOI_REJECT_THRESHOLD_KM2) →
      (∀ dt, (download_data_core area search zarr date_str today collection aoi
          time_range output_dir max_cloud_cover).1 ≠ .error (.unsupportedDataType dt)) ∧
      (∃ args, (download_data_core area search zarr date_str today collection aoi
          time_range output_dir max_cloud_cover).2 = [args] ∧
        args.collections = [collection])) := by
  refine ⟨?_, ?_, ?_⟩
  · intro id
    rw [get_collection_type]
    cases h : COLLECTION_TYPES.lookup id with
    | none => simp
    | some t =>
      rw [Option.getD_some]
      refine lookup_forall (fun t => t ∈ ["raster", "vector", "zarr"])
        COLLECTION_TYPES ?_ id t h
      intro p hp
      fin_cases hp <;> simp
  · intro id h
    rw [get_collection_type, h, Option.getD_none]
  · intro Item area search zarr date_str today collection aoi time_range output_dir
      max_cloud_cover bbox hreg hv ha
    have htype : get_collection_type collection = "raster" := by
      rw [get_collection_type, hreg, Option.getD_none]
    simp only [download_data_core, hv]
    rw [if_neg ha, if_pos htype]
    simp only [download_raster_data]
    set args : SearchArgs :=
      { collections := [collection], bbox := bbox,
        datetime := (apply_default_time_range date_str today time_range).1,
        maxCloudCover := cloud_cover_filter collection max_cloud_cover,
        limit := get_adaptive_search_limit (area bbox), sortby := "-datetime" } with hargs
    by_cases hempty : (search args).isEmpty
    · rw [if_pos hempty]
      by_cases hdef : (apply_default_time_range date_str today time_range).2
      · rw [if_pos hdef]
        exact ⟨by intro dt h; simp at h, ⟨args, rfl, rfl⟩⟩
      · rw [if_neg hdef]
        exact ⟨by intro dt h; simp at h, ⟨args, rfl, rfl⟩⟩
    · rw [if_neg hempty]
      constructor
      · intro dt h
        split_ifs at h
      · refine ⟨args, ?_, rfl⟩
        split_ifs
        all_goals rfl

/-- Witness for C10 at the concrete unregistered id "hls2-l30". -/
theorem C10_witness :
    get_collection_type "hls2-l30" ∈ ["raster", "vector", "zarr"] ∧
    get_collection_type "hls2-l30" = "raster" ∧
    (∃ args, (@download_data_core Unit (fun _ => 5) (fun _ => [()]) zarr_unused
        (fun z => toString z) 0 "hls2-l30" [0, 0, 1, 1] (some "2024-01-01/2024-01-31")
        "out" 20).2 = [args] ∧ args.collections = ["hls2-l30"]) := by
  refine ⟨C10_collection_type_total_default.1 "hls2-l30",
    C10_collection_type_total_default.2.1 "hls2-l30" (by rfl),
    (C10_collection_type_total_default.2.2 Unit (fun _ => 5) (fun _ => [()]) zarr_unused
      (fun z => toString z) 0 "hls2-l30" [0, 0, 1, 1] (some "2024-01-01/2024-01-31")
      "out" 20 [0, 0, 1, 1] (by rfl) (by rfl) (by norm_num [AOI_REJECT_THRESHOLD_KM2])).2⟩

/- ### C3: AOI too large rejected before any catalog search -/

/-- C3: whenever the computed AOI area exceeds the 1000 km² cap,
`download_data` fails with the AOI-too-large rejection and performs zero
catalog searches. -/
theorem C3_aoi_too_large_no_search (Item : Type) (area : List ℚ → ℚ)
    (search : SearchArgs → List Item) (zarr : String → List ℚ → String → String →
      Except DlError DlResult)
    (date_str : ℤ → String) (today : ℤ) (query : String) (aoi : List ℚ)
    (time_range : Option String) (output_dir : String) (max_cloud_cover : ℤ)
    (collection : String) (bbox : List ℚ)
    (hq : detect_collection_from_query query = .ok collection)
    (hv : validate_bbox aoi = .ok bbox)
    (ha : area bbox > AOI_REJECT_THRESHOLD_KM2) :
    download_data area search zarr date_str today query aoi time_range output_dir
      max_cloud_cover =
      (.error (.aoiTooLarge (area bbox) AOI_REJECT_THRESHOLD_KM2), []) := by
  simp only [download_data, hq, download_data_core, hv]
  rw [if_pos ha]

/-- Witness for C3: a 1500 km² AOI is rejected with no search performed. -/
theorem C3_witness :
    @download_data Unit (fun _ => 1500) (fun _ => [()]) zarr_unused
      (fun z => toString z) 0 "naip" [0, 0, 1, 1] none "out" 20 =
      (.error (.aoiTooLarge 1500 1000), []) := by
  have h := C3_aoi_too_large_no_search Unit (fun _ => 1500) (fun _ => [()]) zarr_unused
    (fun z => toString z) 0 "naip" [0, 0, 1, 1] none "out" 20 "naip" [0, 0, 1, 1]
    (by rfl) (by rfl) (by norm_num [AOI_REJECT_THRESHOLD_KM2])
  simpa [AOI_REJECT_THRESHOLD_KM2] using h

/- ### C2: cloud-cover filter (corrected) -/

/-- C2 counterexample: naip has category `optical`, yet the raster path of
`download_data` passes `None` as the cloud-cover filter to the catalog
search, so "filter passed iff category is optical" fails at naip. -/
theorem C2_counterexample :
    category_of "naip" = some "optical" ∧
    ((@download_data Unit (fun _ => 5) (fun _ => [()]) zarr_unused
        (fun z => toString z) 0 "naip" [0, 0, 1, 1] (some "2024-01-01/2024-01-31")
        "out" 20).2.map (·.maxCloudCover)) = [none] := by
  constructor
  · rfl
  · rfl

/-- C2 (amended): the raster path passes `max_cloud_cover` to the catalog
search exactly for the two collections with `eo:cloud_cover` metadata,
sentinel-2-l2a and landsat-c2-l2; both are optical, but naip — also
optical — is excluded and gets `None`. -/
theorem C2_amended_cloud_cover (Item : Type) (area : List ℚ → ℚ)
    (search : SearchArgs → List Item)
    (zarr : String → List ℚ → String → String → Except DlError DlResult)
    (date_str : ℤ → String) (today : ℤ) (query : String) (aoi : List ℚ)
    (time_range : Option String) (output_dir : String) (max_cloud_cover : ℤ)
    (collection : String) (bbox : List ℚ)
    (hq : detect_collection_from_query query = .ok collection)
    (htype : get_collection_type collection = "raster")
    (hv : validate_bbox aoi = .ok bbox)
    (ha : ¬(area bbox > AOI_REJECT_THRESHOLD_KM2)) :
    (∃ args, (download_data area search zarr date_str today query aoi time_range
        output_dir max_cloud_cover).2 = [args] ∧
      args.maxCloudCover = cloud_cover_filter collection max_cloud_cover) ∧
    (∀ c m, cloud_cover_filter c m = some m ↔
      (c = "sentinel-2-l2a" ∨ c = "landsat-c2-l2")) ∧
    (∀ c m x, cloud_cover_filter c m = some x → category_of c = some "optical") ∧
    cloud_cover_filter "naip" max_cloud_cover = none := by
  refine ⟨?_, ?_, ?_, rfl⟩
  · simp only [download_data, hq, download_data_core, hv]
    rw [if_neg ha, if_pos htype]
    simp only [download_raster_data]
    set args : SearchArgs :=
      { collections := [collection], bbox := bbox,
        datetime := (apply_default_time_range date_str today time_range).1,
        maxCloudCover := cloud_cover_filter collection max_cloud_cover,
        limit := get_adaptive_search_limit (area bbox), sortby := "-datetime" } with hargs
    by_cases hempty : (search args).isEmpty
    · rw [if_pos hempty]
      by_cases hdef : (apply_default_time_range date_str today time_range).2
      · rw [if_pos hdef]
        exact ⟨args, rfl, rfl⟩
      · rw [if_neg hdef]
        exact ⟨args, rfl, rfl⟩
    · rw [if_neg hempty]
      refine ⟨args, ?_, rfl⟩
      split_ifs
      all_goals rfl
  · intro c m
    rw [cloud_cover_filter]
    split_ifs with h
    · simp only [List.contains_cons, List.contains_nil, Bool.or_false, Bool.or_eq_true,
        beq_iff_eq] at h
      simp [h]
    · simp only [List.contains_cons, List.contains_nil, Bool.or_false, Bool.or_eq_true,
        beq_iff_eq] at h
      simp [h]
  · intro c m x hx
    rw [cloud_cover_filter] at hx
    split_ifs at hx with h
    · simp only [List.contains_cons, List.contains_nil, Bool.or_false, Bool.or_eq_true,
        beq_iff_eq] at h
      rcases h with rfl | rfl
      · rfl
      · rfl

/-- Witness for C2 (amended) at the concrete collection naip. -/
theorem C2_witness :
    (∃ args, (@download_data Unit (fun _ => 5) (fun _ => [()]) zarr_unused
        (fun z => toString z) 0 "naip" [0, 0, 1, 1] (some "2024-01-01/2024-01-31")
        "out" 20).2 = [args] ∧
      args.maxCloudCover = cloud_cover_filter "naip" 20) ∧
    cloud_cover_filter "naip" 20 = none :=
  ⟨(C2_amended_cloud_cover Unit (fun _ => 5) (fun _ => [()]) zarr_unused
      (fun z => toString z) 0 "naip" [0, 0, 1, 1] (some "2024-01-01/2024-01-31")
      "out" 20 "naip" [0, 0, 1, 1] (by rfl) (by rfl) (by rfl) (by decide)).1,
   (C2_amended_cloud_cover Unit (fun _ => 5) (fun _ => [()]) zarr_unused
      (fun z => toString z) 0 "naip" [0, 0, 1, 1] (some "2024-01-01/2024-01-31")
      "out" 20 "naip" [0, 0, 1, 1] (by rfl) (by rfl) (by rfl) (by decide)).2.2.2⟩

/- ### C4: no-data error and retry suggestion -/

/-- C4: when the raster-path catalog search returns zero items,
`download_data` fails with `NoDataFound`; the structured retry suggestion
(widened to the 7-day default plus 7 more days) is attached exactly when
the time window was system-defaulted, and is `None` when the caller
supplied an explicit `time_range`. -/
theorem C4_no_data_found_suggestion (Item : Type) (area : List ℚ → ℚ)
    (search : SearchArgs → List Item)
    (zarr : String → List ℚ → String → String → Except DlError DlResult)
    (date_str : ℤ → String) (today : ℤ) (query : String) (aoi : List ℚ)
    (time_range : Option String) (output_dir : String) (max_cloud_cover : ℤ)
    (collection : String) (bbox : List ℚ)
    (hq : detect_collection_from_query query = .ok collection)
    (htype : get_collection_type collection = "raster")
    (hv : validate_bbox aoi = .ok bbox)
    (ha : ¬(area bbox > AOI_REJECT_THRESHOLD_KM2))
    (hsearch : ∀ a, search a = []) :
    (time_range = none →
      ∃ msg sugg,
        (download_data area search zarr date_str today query aoi time_range
          output_dir max_cloud_cover).1 = .error (.noDataFound msg (some sugg)) ∧
        sugg.suggestedDays = DEFAULT_TIME_RANGE_DAYS + 7 ∧
        sugg.suggestedTimeRange =
          get_default_time_range date_str today (DEFAULT_TIME_RANGE_DAYS + 7)) ∧
    (∀ tr, time_range = some tr →
      ∃ msg,
        (download_data area search zarr date_str today query aoi time_range
          output_dir max_cloud_cover).1 = .error (.noDataFound msg none)) := by
  constructor
  · rintro rfl
    simp only [download_data, hq, download_data_core, hv]
    rw [if_neg ha, if_pos htype]
    simp only [download_raster_data, apply_default_time_range, hsearch, List.isEmpty_nil,
      if_true]
    exact ⟨_, _, rfl, rfl, rfl⟩
  · rintro tr rfl
    simp only [download_data, hq, download_data_core, hv]
    rw [if_neg ha, if_pos htype]
    simp only [download_raster_data, apply_default_time_range, hsearch, List.isEmpty_nil,
      if_true, Bool.false_eq_true, if_false]
    exact ⟨_, rfl⟩

/-- Witness for C4 in both the defaulted and the explicit time-range case. -/
theorem C4_witness :
    (∃ msg sugg,
      (@download_data Unit (fun _ => 5) (fun _ => []) zarr_unused
        (fun z => toString z) 0 "naip" [0, 0, 1, 1] none "out" 20).1 =
        .error (.noDataFound msg (some sugg)) ∧
      sugg.suggestedDays = DEFAULT_TIME_RANGE_DAYS + 7 ∧
      sugg.suggestedTimeRange =
        get_default_time_range (fun z => toString z) 0 (DEFAULT_TIME_RANGE_DAYS + 7)) ∧
    (∃ msg,
      (@download_data Unit (fun _ => 5) (fun _ => []) zarr_unused
        (fun z => toString z) 0 "naip" [0, 0, 1, 1] (some "2024-01-01/2024-01-31")
        "out" 20).1 = .error (.noDataFound msg none)) :=
  ⟨(C4_no_data_found_suggestion Unit (fun _ => 5) (fun _ => []) zarr_unused
      (fun z => toString z) 0 "naip" [0, 0, 1, 1] none "out" 20 "naip" [0, 0, 1, 1]
      (by rfl) (by rfl) (by rfl) (by decide) (fun _ => rfl)).1 rfl,
   (C4_no_data_found_suggestion Unit (fun _ => 5) (fun _ => []) zarr_unused
      (fun z => toString z) 0 "naip" [0, 0, 1, 1] (some "2024-01-01/2024-01-31") "out" 20
      "naip" [0, 0, 1, 1]
      (by rfl) (by rfl) (by rfl) (by decide) (fun _ => rfl)).2
      "2024-01-01/2024-01-31" rfl⟩

/-- The raster branch performs exactly one catalog search, with the
collection, bbox, effective time range, cloud filter, adaptive limit and
most-recent-first sort. -/
theorem download_raster_data_calls_eq (Item : Type) (search : SearchArgs → List Item)
    (date_str : ℤ → String) (today : ℤ) (collection : String) (bbox : List ℚ)
    (time_range : String) (output_dir : String) (max_cloud_cover : ℤ)
    (aoi_area_km2 : ℚ) (used_default_time_range : Bool) :
    (download_raster_data search date_str today collection bbox time_range output_dir
      max_cloud_cover aoi_area_km2 used_default_time_range).2 =
    [{ collections := [collection], bbox := bbox, datetime := time_range,
       maxCloudCover := cloud_cover_filter collection max_cloud_cover,
       limit := get_adaptive_search_limit aoi_area_km2, sortby := "-datetime" }] := by
  simp only [download_raster_data]
  split_ifs
  all_goals rfl

/-- A successful raster branch yields an empty warnings list (warnings are
attached afterwards by `download_data`). -/
theorem download_raster_data_ok_warnings (Item : Type) (search : SearchArgs → List Item)
    (date_str : ℤ → String) (today : ℤ) (collection : String) (bbox : List ℚ)
    (time_range : String) (output_dir : String) (max_cloud_cover : ℤ)
    (aoi_area_km2 : ℚ) (used_default_time_range : Bool) :
    ∀ r, (download_raster_data search date_str today collection bbox time_range output_dir
      max_cloud_cover aoi_area_km2 used_default_time_range).1 = .ok r →
      r.warnings = [] := by
  intro r h
  simp only [download_raster_data] at h
  split_ifs at h
  all_goals simp_all
  rw [← h]

/- ### C8: time-range defaulting -/

/-- C8: with `time_range` absent, `download_data` substitutes the window of
the most recent 7 days rendered as "start/end", records
`used_default_time_range = true`, searches with that window, and appends a
warning stating the substituted window; a caller-supplied `time_range` is
used unchanged with `used_default_time_range = false` and no default-window
warning is added. -/
theorem C8_default_time_range (Item : Type) (area : List ℚ → ℚ)
    (search : SearchArgs → List Item)
    (zarr : String → List ℚ → String → String → Except DlError DlResult)
    (date_str : ℤ → String) (today : ℤ) (query : String) (aoi : List ℚ)
    (output_dir : String) (max_cloud_cover : ℤ) (collection : String) (bbox : List ℚ)
    (hq : detect_collection_from_query query = .ok collection)
    (htype : get_collection_type collection = "raster")
    (hv : validate_bbox aoi = .ok bbox)
    (ha : ¬(area bbox > AOI_REJECT_THRESHOLD_KM2)) :
    (apply_default_time_range date_str today none =
      (date_str (today - (DEFAULT_TIME_RANGE_DAYS : ℕ)) ++ "/" ++ date_str today, true)) ∧
    (∀ args ∈ (download_data area search zarr date_str today query aoi none
        output_dir max_cloud_cover).2,
      args.datetime = get_default_time_range date_str today DEFAULT_TIME_RANGE_DAYS) ∧
    (∀ r calls,
      download_data area search zarr date_str today query aoi none output_dir
        max_cloud_cover = (.ok r, calls) →
      r.warnings =
        (if area bbox > AOI_WARN_THRESHOLD_KM2 then [large_aoi_warning (area bbox)]
         else []) ++
        [default_time_range_warning
          (get_default_time_range date_str today DEFAULT_TIME_RANGE_DAYS)]) ∧
    (∀ tr, apply_default_time_range date_str today (some tr) = (tr, false)) ∧
    (∀ tr, ∀ args ∈ (download_data area search zarr date_str today query aoi (some tr)
        output_dir max_cloud_cover).2, args.datetime = tr) ∧
    (∀ tr r calls,
      download_data area search zarr date_str today query aoi (some tr) output_dir
        max_cloud_cover = (.ok r, calls) →
      r.warnings =
        (if area bbox > AOI_WARN_THRESHOLD_KM2 then [large_aoi_warning (area bbox)]
         else [])) := by
  have hunfold : ∀ (time_range : Option String),
      download_data area search zarr date_str today query aoi time_range output_dir
        max_cloud_cover =
      (match download_raster_data search date_str today collection bbox
          (apply_default_time_range date_str today time_range).1 output_dir
          max_cloud_cover (area bbox)
          (apply_default_time_range date_str today time_range).2 with
       | (.ok r, calls) =>
         (.ok (if (if (apply_default_time_range date_str today time_range).2 then
                (if area bbox > AOI_WARN_THRESHOLD_KM2 then [large_aoi_warning (area bbox)]
                 else []) ++
                [default_time_range_warning
                  (apply_default_time_range date_str today time_range).1]
              else
                (if area bbox > AOI_WARN_THRESHOLD_KM2 then [large_aoi_warning (area bbox)]
                 else [])).isEmpty then r
              else { r with warnings :=
                (if (apply_default_time_range date_str today time_range).2 then
                  (if area bbox > AOI_WARN_THRESHOLD_KM2 then
                    [large_aoi_warning (area bbox)] else []) ++
                  [default_time_range_warning
                    (apply_default_time_range date_str today time_range).1]
                else
                  (if area bbox > AOI_WARN_THRESHOLD_KM2 then
                    [large_aoi_warning (area bbox)] else [])) }), calls)
       | (.error e, calls) => (.error e, calls)) := by
    intro time_range
    simp only [download_data, hq, download_data_core, hv]
    rw [if_neg ha, if_pos htype]
  have hcalls : ∀ (time_range : Option String),
      (download_data area search zarr date_str today query aoi time_range output_dir
        max_cloud_cover).2 =
      [{ collections := [collection], bbox := bbox,
         datetime := (apply_default_time_range date_str today time_range).1,
         maxCloudCover := cloud_cover_filter collection max_cloud_cover,
         limit := get_adaptive_search_limit (area bbox), sortby := "-datetime" }] := by
    intro time_range
    rw [hunfold time_range]
    rw [← download_raster_data_calls_eq Item search date_str today collection bbox
      (apply_default_time_range date_str today time_range).1 output_dir max_cloud_cover
      (area bbox) (apply_default_time_range date_str today time_range).2]
    generalize download_raster_data search date_str today collection bbox
      (apply_default_time_range date_str today time_range).1 output_dir max_cloud_cover
      (area bbox) (apply_default_time_range date_str today time_range).2 = D
    rcases D with ⟨res, cs⟩
    cases res
    · rfl
    · rfl
  have hwarn : ∀ (time_range : Option String) (r : DlResult) (calls : List SearchArgs),
      download_data area search zarr date_str today query aoi time_range output_dir
        max_cloud_cover = (.ok r, calls) →
      r.warnings =
        (if (apply_default_time_range date_str today time_range).2 then
          (if area bbox > AOI_WARN_THRESHOLD_KM2 then [large_aoi_warning (area bbox)]
           else []) ++
          [default_time_range_warning (apply_default_time_range date_str today time_range).1]
        else
          (if area bbox > AOI_WARN_THRESHOLD_KM2 then [large_aoi_warning (area bbox)]
           else [])) := by
    intro time_range r calls h
    rw [hunfold time_range] at h
    have hok := download_raster_data_ok_warnings Item search date_str today collection bbox
      (apply_default_time_range date_str today time_range).1 output_dir max_cloud_cover
      (area bbox) (apply_default_time_range date_str today time_range).2
    generalize hD : download_raster_data search date_str today collection bbox
      (apply_default_time_range date_str today time_range).1 output_dir max_cloud_cover
      (area bbox) (apply_default_time_range date_str today time_range).2 = D at h hok
    rcases D with ⟨res, cs⟩
    cases res with
    | error e => simp at h
    | ok r0 =>
      have hr0 : r0.warnings = [] := hok r0 rfl
      simp only [Prod.mk.injEq] at h
      obtain ⟨h1, -⟩ := h
      injection h1 with h1
      set wl := (if (apply_default_time_range date_str today time_range).2 then
          (if area bbox > AOI_WARN_THRESHOLD_KM2 then [large_aoi_warning (area bbox)]
           else []) ++
          [default_time_range_warning (apply_default_time_range date_str today time_range).1]
        else
          (if area bbox > AOI_WARN_THRESHOLD_KM2 then [large_aoi_warning (area bbox)]
           else [])) with hwl
      by_cases hempty : wl.isEmpty
      · rw [if_pos hempty] at h1
        rw [← h1, hr0]
        exact (List.isEmpty_iff.mp hempty).symm
      · rw [if_neg hempty] at h1
        rw [← h1]
  refine ⟨rfl, ?_, ?_, fun tr => rfl, ?_, ?_⟩
  · intro args hmem
    rw [hcalls none] at hmem
    rw [List.mem_singleton] at hmem
    rw [hmem]
    rfl
  · intro r calls h
    rw [hwarn none r calls h]
    rfl
  · intro tr args hmem
    rw [hcalls (some tr)] at hmem
    rw [List.mem_singleton] at hmem
    rw [hmem]
    rfl
  · intro tr r calls h
    rw [hwarn (some tr) r calls h]
    rfl

/-- Witness for C8 in both the defaulted and the explicit time-range case. -/
theorem C8_witness :
    (∀ args ∈ (@download_data Unit (fun _ => 5) (fun _ => [()]) zarr_unused
        (fun z => toString z) 0 "naip" [0, 0, 1, 1] none "out" 20).2,
      args.datetime =
        get_default_time_range (fun z => toString z) 0 DEFAULT_TIME_RANGE_DAYS) ∧
    (∀ tr, ∀ args ∈ (@download_data Unit (fun _ => 5) (fun _ => [()]) zarr_unused
        (fun z => toString z) 0 "naip" [0, 0, 1, 1] (some tr) "out" 20).2,
      args.datetime = tr) :=
  ⟨(C8_default_time_range Unit (fun _ => 5) (fun _ => [()]) zarr_unused
      (fun z => toString z) 0 "naip" [0, 0, 1, 1] "out" 20 "naip" [0, 0, 1, 1]
      (by rfl) (by rfl) (by rfl) (by decide)).2.1,
   (C8_default_time_range Unit (fun _ => 5) (fun _ => [()]) zarr_unused
      (fun z => toString z) 0 "naip" [0, 0, 1, 1] "out" 20 "naip" [0, 0, 1, 1]
      (by rfl) (by rfl) (by rfl) (by decide)).2.2.2.2.1⟩


/- ### C1: ambiguous resolution of "satellite imagery" (corrected) -/

/-- C1 counterexample: for "satellite imagery" the deduplicated first-seen
candidate order is sentinel-2-l2a, landsat-c2-l2, sentinel-1-rtc, naip, so
the 3-entry cap drops naip — the suggestions do not include naip. -/
theorem C1_counterexample :
    detect_suggestions (detect_collection_from_query "satellite imagery") =
      ["sentinel-2-l2a", "landsat-c2-l2", "sentinel-1-rtc"] ∧
    "naip" ∉ detect_suggestions (detect_collection_from_query "satellite imagery") := by
  constructor
  · rfl
  · intro h
    rw [show detect_suggestions (detect_collection_from_query "satellite imagery") =
      ["sentinel-2-l2a", "landsat-c2-l2", "sentinel-1-rtc"] from rfl] at h
    simp at h

/-- C1 (amended): "satellite imagery" resolves to an ambiguous-resolution
error whose suggestion list has at most 3 entries, deduplicated from the
matched ambiguous-keyword candidate sets preserving first-seen order, and
the suggested collections are sentinel-2-l2a, landsat-c2-l2 and
sentinel-1-rtc (naip, first seen fourth, falls outside the cap). -/
theorem C1_amended_ambiguous_suggestions :
    ∃ msg suggestions,
      detect_collection_from_query "satellite imagery" =
        .error (.ambiguous msg suggestions) ∧
      suggestions.length ≤ 3 ∧
      suggestions.map Suggestion.collection =
        (dedup_first_seen (ambiguous_matched (lower_str "satellite imagery"))).take 3 ∧
      suggestions.map Suggestion.collection =
        ["sentinel-2-l2a", "landsat-c2-l2", "sentinel-1-rtc"] ∧
      "sentinel-2-l2a" ∈ suggestions.map Suggestion.collection ∧
      "landsat-c2-l2" ∈ suggestions.map Suggestion.collection ∧
      "sentinel-1-rtc" ∈ suggestions.map Suggestion.collection := by
  refine ⟨_, _, rfl, ?_, rfl, rfl, ?_, ?_, ?_⟩
  · rfl
  · decide
  · decide
  · decide

/- ### C6: partitioned vector fetch -/

/-- The accumulation step only ever appends on the right. -/
theorem collect_step_append {Row : Type} (i : Row → Bool)
    (acc : List (List Row)) (p : Except Unit (List Row)) :
    collect_step i acc p = acc ++ collect_step i [] p := by
  rw [collect_step, collect_step]
  cases read_and_filter_parquet p i with
  | none => simp
  | some gdf =>
    dsimp only
    split_ifs
    · simp
    · simp

/-- Unrolling the accumulation loop from an arbitrary accumulator. -/
theorem foldl_collect_step {Row : Type} (i : Row → Bool) :
    ∀ (l : List (Except Unit (List Row))) (acc : List (List Row)),
      l.foldl (collect_step i) acc = acc ++ l.foldl (collect_step i) [] := by
  intro l
  induction l with
  | nil => intro acc; simp
  | cons p rest ih =>
    intro acc
    rw [List.foldl_cons, List.foldl_cons, ih (collect_step i acc p),
      ih (collect_step i [] p), collect_step_append]
    simp

/-- Flattened contribution of a single partition: the spatially filtered
rows when the read succeeds, nothing when it raises. -/
theorem collect_step_flatten {Row : Type} (i : Row → Bool)
    (p : Except Unit (List Row)) :
    (collect_step i [] p).flatten =
      match Except.toOption p with
      | none => []
      | some rows => rows.filter i := by
  cases p with
  | error e => rfl
  | ok rows =>
    rw [collect_step, read_and_filter_parquet]
    by_cases h0 : rows.length = 0
    · rw [if_pos h0]
      rw [List.length_eq_zero] at h0
      simp [Except.toOption, h0]
    · rw [if_neg h0]
      by_cases hf : (rows.filter i).length > 0
      · rw [if_pos hf]
        simp [Except.toOption, hf]
      · rw [if_neg hf]
        simp only [not_lt, Nat.le_zero] at hf
        rw [List.length_eq_zero] at hf
        simp [Except.toOption, hf]

/-- The whole quadkey fetch equals the concatenation of the filtered rows
of the partitions whose reads succeed. -/
theorem query_geoparquet_eq_union {Row : Type}
    (partitions : List (Except Unit (List Row))) (intersects : Row → Bool) :
    query_geoparquet_by_quadkey partitions intersects =
      ((partitions.filterMap Except.toOption).map
        (fun rows => rows.filter intersects)).flatten := by
  induction partitions with
  | nil => rfl
  | cons p rest ih =>
    rw [query_geoparquet_by_quadkey, collect_partition_reads, List.foldl_cons,
      foldl_collect_step, List.flatten_append]
    rw [query_geoparquet_by_quadkey, collect_partition_reads] at ih
    rw [ih, collect_step_flatten]
    cases p with
    | error e => simp [Except.toOption]
    | ok rows => simp [Except.toOption]

/-- C6: the quadkey vector fetch returns exactly the concatenation of the
AOI-filtered rows of the partitions whose reads succeed; per-partition
failures are swallowed, and when every partition fails or has no
intersecting rows the result is the empty (but valid) frame. -/
theorem C6_vector_fetch_union {Row : Type}
    (partitions : List (Except Unit (List Row))) (intersects : Row → Bool) :
    query_geoparquet_by_quadkey partitions intersects =
      ((partitions.filterMap Except.toOption).map
        (fun rows => rows.filter intersects)).flatten ∧
    ((∀ p ∈ partitions, ∀ rows, p = .ok rows → rows.filter intersects = []) →
      query_geoparquet_by_quadkey partitions intersects = []) := by
  refine ⟨query_geoparquet_eq_union partitions intersects, ?_⟩
  intro hfail
  rw [query_geoparquet_eq_union partitions intersects]
  rw [List.flatten_eq_nil_iff]
  intro l hl
  rw [List.mem_map] at hl
  obtain ⟨rows, hrows, rfl⟩ := hl
  rw [List.mem_filterMap] at hrows
  obtain ⟨p, hp, hpt⟩ := hrows
  have hpe : p = .ok rows := by
    cases p with
    | error e => simp [Except.toOption] at hpt
    | ok r =>
      simp only [Except.toOption, Option.some.injEq] at hpt
      rw [hpt]
  exact hfail p hp rows hpe

/-- Witness for C6: one raising partition, one empty partition and one
partition with a row that fails the filter yield the empty result. -/
theorem C6_witness :
    query_geoparquet_by_quadkey
      [Except.error (), Except.ok ([] : List ℕ), Except.ok [7]]
      (fun _ => false) = [] :=
  (C6_vector_fetch_union [Except.error (), Except.ok ([] : List ℕ), Except.ok [7]]
    (fun _ => false)).2 (by
      intro p hp rows hrow
      fin_cases hp
      · exact Except.noConfusion hrow
      · injection hrow with h
        rw [← h]
        rfl
      · injection hrow with h
        rw [← h]
        rfl)

/- ### C7: bbox area invariance and monotonicity -/

theorem radians_lt {x y : ℝ} (h : x < y) : radians x < radians y := by
  rw [radians, radians]
  apply mul_lt_mul_of_pos_right h
  positivity

theorem radians_le {x y : ℝ} (h : x ≤ y) : radians x ≤ radians y := by
  rw [radians, radians]
  apply mul_le_mul_of_nonneg_right h
  positivity

theorem radians_neg90 : radians (-90) = -(Real.pi / 2) := by
  rw [radians]; ring

theorem radians_90 : radians 90 = Real.pi / 2 := by
  rw [radians]; ring

theorem radians_center (s n : ℝ) : (radians s + radians n) / 2 = radians ((s + n) / 2) := by
  rw [radians, radians, radians]; ring

/-- Chord comparison from the strict concavity of sin on [0, π]. -/
theorem mul_sin_lt_mul_sin {u₁ u₂ : ℝ} (h0 : 0 < u₁) (h12 : u₁ < u₂) (h2 : u₂ ≤ Real.pi / 2) :
    u₁ * Real.sin u₂ < u₂ * Real.sin u₁ := by
  have hπ := Real.pi_pos
  have hu2pos : 0 < u₂ := h0.trans h12
  have hmem0 : (0 : ℝ) ∈ Set.Icc (0 : ℝ) Real.pi := ⟨le_rfl, hπ.le⟩
  have hmem2 : u₂ ∈ Set.Icc (0 : ℝ) Real.pi := ⟨hu2pos.le, by linarith⟩
  have hne : (0 : ℝ) ≠ u₂ := ne_of_lt hu2pos
  have ht0 : 0 < u₁ / u₂ := div_pos h0 hu2pos
  have ht1 : u₁ / u₂ < 1 := (div_lt_one hu2pos).mpr h12
  have key := strictConcaveOn_sin_Icc.2 hmem0 hmem2 hne
    (show (0 : ℝ) < 1 - u₁ / u₂ by linarith) ht0 (by ring)
  rw [smul_eq_mul, smul_eq_mul, smul_eq_mul, smul_eq_mul, Real.sin_zero] at key
  have htu : u₁ / u₂ * u₂ = u₁ := div_mul_cancel₀ u₁ (ne_of_gt hu2pos)
  rw [mul_zero, zero_add, zero_add, htu] at key
  -- key : u₁ / u₂ * Real.sin u₂ < Real.sin u₁
  calc u₁ * Real.sin u₂ = u₂ * (u₁ / u₂ * Real.sin u₂) := by
        field_simp
    _ < u₂ * Real.sin u₁ := mul_lt_mul_of_pos_left key hu2pos

/-- Strict growth of (b - a)·cos((a+b)/2) in b on the valid latitude band. -/
theorem height_term_lt {a b₁ b₂ : ℝ} (ha : -(Real.pi / 2) ≤ a) (h1 : a < b₁)
    (h2 : b₁ < b₂) (h3 : b₂ ≤ Real.pi / 2) :
    (b₁ - a) * Real.cos ((a + b₁) / 2) < (b₂ - a) * Real.cos ((a + b₂) / 2) := by
  have hπ := Real.pi_pos
  have hu1pos : 0 < (b₁ - a) / 2 := by linarith
  have hu2pos : 0 < (b₂ - a) / 2 := by linarith
  have hu12 : (b₁ - a) / 2 < (b₂ - a) / 2 := by linarith
  have hu2le : (b₂ - a) / 2 ≤ Real.pi / 2 := by linarith
  have hs1 : 0 < Real.sin ((b₁ - a) / 2) :=
    Real.sin_pos_of_pos_of_lt_pi hu1pos (by linarith)
  have hs2 : 0 < Real.sin ((b₂ - a) / 2) :=
    Real.sin_pos_of_pos_of_lt_pi hu2pos (by linarith)
  have hkey : (b₁ - a) / 2 * Real.sin ((b₂ - a) / 2) <
      (b₂ - a) / 2 * Real.sin ((b₁ - a) / 2) :=
    mul_sin_lt_mul_sin hu1pos hu12 hu2le
  have hm1 : Real.sin a < Real.sin b₁ :=
    Real.sin_lt_sin_of_lt_of_le_pi_div_two ha (by linarith) h1
  have hm2 : Real.sin b₁ < Real.sin b₂ :=
    Real.sin_lt_sin_of_lt_of_le_pi_div_two (by linarith) h3 h2
  have hc1 : Real.cos ((a + b₁) / 2) =
      (Real.sin b₁ - Real.sin a) / (2 * Real.sin ((b₁ - a) / 2)) := by
    rw [Real.sin_sub_sin, add_comm a b₁]
    field_simp
  have hc2 : Real.cos ((a + b₂) / 2) =
      (Real.sin b₂ - Real.sin a) / (2 * Real.sin ((b₂ - a) / 2)) := by
    rw [Real.sin_sub_sin, add_comm a b₂]
    field_simp
  rw [hc1, hc2]
  have hdivs : (b₁ - a) / (2 * Real.sin ((b₁ - a) / 2)) <
      (b₂ - a) / (2 * Real.sin ((b₂ - a) / 2)) := by
    rw [div_lt_div_iff₀ (by positivity) (by positivity)]
    ring_nf
    ring_nf at hkey
    linarith
  have hS1 : 0 < Real.sin b₁ - Real.sin a := by linarith
  have hS2 : Real.sin b₁ - Real.sin a < Real.sin b₂ - Real.sin a := by linarith
  calc (b₁ - a) * ((Real.sin b₁ - Real.sin a) / (2 * Real.sin ((b₁ - a) / 2)))
      = ((b₁ - a) / (2 * Real.sin ((b₁ - a) / 2))) * (Real.sin b₁ - Real.sin a) := by
        ring
    _ < ((b₂ - a) / (2 * Real.sin ((b₂ - a) / 2))) * (Real.sin b₂ - Real.sin a) :=
        mul_lt_mul'' hdivs hS2 (div_nonneg (by linarith) (by positivity)) hS1.le
    _ = (b₂ - a) * ((Real.sin b₂ - Real.sin a) / (2 * Real.sin ((b₂ - a) / 2))) := by
        ring

/-- The area formula with the absolute values resolved for an ordered box. -/
theorem area_as_product (w s e n : ℝ) (hwe : w ≤ e) (hsn : s ≤ n) :
    calculate_bbox_area_km2 w s e n =
      (6371 * 6371 * (Real.pi / 180) * (e - w)) *
        ((radians n - radians s) * Real.cos ((radians s + radians n) / 2)) := by
  have hπ := Real.pi_pos
  have h1 : (0 : ℝ) ≤ e * (Real.pi / 180) - w * (Real.pi / 180) := by nlinarith
  have h2 : (0 : ℝ) ≤ n * (Real.pi / 180) - s * (Real.pi / 180) := by nlinarith
  simp only [calculate_bbox_area_km2, radians]
  rw [abs_of_nonneg h1, abs_of_nonneg h2]
  ring

/-- C7: for valid boxes the computed area is invariant under translating
both longitudes by 360°, strictly increasing in box width (east grows,
latitudes fixed), and strictly increasing in box height (north grows, the
cos(center-latitude) shrink notwithstanding). -/
theorem C7_area_invariance_monotonicity :
    (∀ w s e n : ℝ,
      calculate_bbox_area_km2 (w + 360) s (e + 360) n = calculate_bbox_area_km2 w s e n) ∧
    (∀ w s e₁ e₂ n : ℝ, -90 ≤ s → s < n → n ≤ 90 → w < e₁ → e₁ < e₂ →
      calculate_bbox_area_km2 w s e₁ n < calculate_bbox_area_km2 w s e₂ n) ∧
    (∀ w s e n₁ n₂ : ℝ, w < e → -90 ≤ s → s < n₁ → n₁ < n₂ → n₂ ≤ 90 →
      calculate_bbox_area_km2 w s e n₁ < calculate_bbox_area_km2 w s e n₂) := by
  refine ⟨?_, ?_, ?_⟩
  · intro w s e n
    simp only [calculate_bbox_area_km2, radians]
    rw [show (e + 360) * (Real.pi / 180) - (w + 360) * (Real.pi / 180) =
      e * (Real.pi / 180) - w * (Real.pi / 180) from by ring]
  · intro w s e₁ e₂ n hs hsn hn he1 he2
    rw [area_as_product w s e₁ n (by linarith) (by linarith),
      area_as_product w s e₂ n (by linarith) (by linarith)]
    have hcos : 0 < Real.cos ((radians s + radians n) / 2) := by
      rw [radians_center]
      apply Real.cos_pos_of_mem_Ioo
      constructor
      · rw [← radians_neg90]
        exact radians_lt (by linarith)
      · rw [← radians_90]
        exact radians_lt (by linarith)
    have hH : 0 < (radians n - radians s) * Real.cos ((radians s + radians n) / 2) :=
      mul_pos (by linarith [radians_lt hsn]) hcos
    apply mul_lt_mul_of_pos_right ?_ hH
    have hπ := Real.pi_pos
    nlinarith
  · intro w s e n₁ n₂ hwe hs h1 h2 hn2
    rw [area_as_product w s e n₁ hwe.le (by linarith),
      area_as_product w s e n₂ hwe.le (by linarith)]
    apply mul_lt_mul_of_pos_left ?_
      (mul_pos (by positivity) (show (0:ℝ) < e - w by linarith))
    have key := @height_term_lt (radians s) (radians n₁) (radians n₂)
      (by rw [← radians_neg90]; exact radians_le hs)
      (radians_lt h1) (radians_lt h2)
      (by rw [← radians_90]; exact radians_le hn2)
    exact key


/-- Witness for C7 at concrete boxes. -/
theorem C7_witness :
    calculate_bbox_area_km2 (0 + 360) 0 (1 + 360) 1 = calculate_bbox_area_km2 0 0 1 1 ∧
    calculate_bbox_area_km2 0 0 1 1 < calculate_bbox_area_km2 0 0 2 1 ∧
    calculate_bbox_area_km2 0 0 1 1 < calculate_bbox_area_km2 0 0 1 2 :=
  ⟨C7_area_invariance_monotonicity.1 0 0 1 1,
   C7_area_invariance_monotonicity.2.1 0 0 1 2 1 (by norm_num) (by norm_num) (by norm_num)
     (by norm_num) (by norm_num),
   C7_area_invariance_monotonicity.2.2 0 0 1 1 2 (by norm_num) (by norm_num) (by norm_num)
     (by norm_num) (by norm_num)⟩
